import Mathlib

/-!
Verification development for the `curation` repository.

Shallow embedding of the Python scripts under `src/data_steward/` that the
claims refer to.  External services (the BigQuery warehouse, the GCS storage
client, the filesystem) are modelled as oracle parameters: a function handed
to the embedded code describing how every external call would respond.  All
definitions are executable; stateful loops are modelled by explicit event
traces.
-/

namespace Curation

/-! ### Model of `retraction/retract_deactivated_pids.py` -/

/-- A query dictionary as used by the cleaning rules and by `query_runner`.
`query` is the value under `cdr_consts.QUERY`; the destination fields model
the optional `DESTINATION_TABLE`, `DESTINATION_DATASET` and `DISPOSITION`
entries (`destinationDataset` is only read when `destinationTable` is set,
exactly as in the Python code). -/
structure QueryDict where
  query : String
  destinationTable : Option String := none
  destinationDataset : String := ""
  disposition : Option String := none
deriving Repr, DecidableEq

/-- Exceptions raised by the warehouse client: `google.cloud.exceptions.GoogleCloudError`
and `concurrent.futures.TimeoutError` (imported as `TOError`). -/
inductive CloudExn where
  | googleCloudError (msg : String)
  | timeoutError (msg : String)
deriving Repr, DecidableEq

/-- Exceptions that can escape `query_runner`: a re-raised client exception or
the `RuntimeError` built for a job whose `errors` attribute is truthy. -/
inductive Exn where
  | cloud (e : CloudExn)
  | runtimeError (msg : String)
deriving Repr, DecidableEq

/-- Outcome of `query_job.result()` for a submitted job: it either raises a
client exception or returns, leaving the job's `errors` attribute as `None`
(`none`) or a list of error records (modelled by their textual form). -/
inductive AwaitResult where
  | raised (e : CloudExn)
  | done (errors : Option (List String))
deriving Repr, DecidableEq

/-- Outcome of `client.query(...)`: either the call itself raises, or it
returns a job with a job id whose later `result()` call behaves as given. -/
inductive SubmitResult where
  | raised (e : CloudExn)
  | job (jobId : String) (awaitRes : AwaitResult)
deriving Repr, DecidableEq

/-- The `bigquery.job.QueryJobConfig` fields set by `query_runner`. -/
structure JobConfig where
  destination : Option String := none
  writeDisposition : Option String := none
deriving Repr, DecidableEq

/-- Constant `bq_consts.WRITE_EMPTY` (imported from `constants.bq_utils`,
whose module is not part of the sources; the value is the standard BigQuery
write disposition name used as the default). -/
def WRITE_EMPTY : String := "WRITE_EMPTY"

/-- The BigQuery client object.  `id` models Python object identity (used to
state that a single client object serves every submission), `project` is
`client.project`, and `submit` is the oracle describing how the warehouse
responds to `client.query(query, job_config, ...)`. -/
structure Client where
  id : Nat
  project : String
  submit : QueryDict → JobConfig → SubmitResult

/-- The job config construction at the top of `query_runner`: a destination
table reference `f'{client.project}.{dataset}.{table}'` and a write
disposition (defaulting to `WRITE_EMPTY`) are set only when the query dict
carries a destination table. -/
def mkJobConfig (client : Client) (qd : QueryDict) : JobConfig :=
  match qd.destinationTable with
  | none => {}
  | some t =>
    { destination := some (client.project ++ "." ++ qd.destinationDataset ++ "." ++ t)
      writeDisposition := some (qd.disposition.getD WRITE_EMPTY) }

/-- Python truthiness of the job's `errors` attribute (`None` and the empty
list are falsy). -/
def errorsTruthy : Option (List String) → Bool
  | none => false
  | some l => !l.isEmpty

/-- Textual form of a Python list of error records, as interpolated by an
f-string. -/
def pyStr (l : List String) : String :=
  "[" ++ String.intercalate ", " l ++ "]"

/-- Textual form of the job's `errors` attribute (`None` or a list). -/
def pyOptErrors : Option (List String) → String
  | none => "None"
  | some l => pyStr l

/-- The message of the `RuntimeError` raised by `query_runner` when the
completed job reports errors:
`f"Job {job_id} failed with error {errors} for query{query}"`
(note: the two f-string literals are adjacent, so there is no space before
the query text). -/
def runtimeErrMsg (jobId : String) (errors : List String) (query : String) : String :=
  "Job " ++ (jobId ++ (" failed with error " ++ (pyStr errors ++ (" for query" ++ query))))

/-- Observable events of the retraction pipeline: sandbox-dataset creation,
submission of a query by a client, and the synchronous wait on a submitted
job (`query_job.result()`). -/
inductive Event where
  | sandbox (projectId datasetId sandboxDatasetId : String)
  | submit (clientId : Nat) (q : QueryDict)
  | wait (clientId : Nat) (jobId : String)
deriving Repr, DecidableEq

/-- Function `query_runner(client, query_dict)` with its event trace.  Mirrors the
source: build the job config, submit, wait on the job, raise `RuntimeError`
if the completed job reports errors, re-raise client exceptions, otherwise
return the job id.  (The `LOGGER` calls are not modelled as effects.) -/
def query_runner_ev (client : Client) (query_dict : QueryDict) :
    List Event × Except Exn String :=
  match client.submit query_dict (mkJobConfig client query_dict) with
  | SubmitResult.raised e =>
    ([Event.submit client.id query_dict], Except.error (Exn.cloud e))
  | SubmitResult.job jobId (AwaitResult.raised e) =>
    ([Event.submit client.id query_dict, Event.wait client.id jobId],
     Except.error (Exn.cloud e))
  | SubmitResult.job jobId (AwaitResult.done errors) =>
    if errorsTruthy errors then
      ([Event.submit client.id query_dict, Event.wait client.id jobId],
       Except.error (Exn.runtimeError
         (runtimeErrMsg jobId (errors.getD []) query_dict.query)))
    else
      ([Event.submit client.id query_dict, Event.wait client.id jobId],
       Except.ok jobId)

/-- The value/exception behaviour of `query_runner` (trace projected away). -/
def query_runner (client : Client) (query_dict : QueryDict) : Except Exn String :=
  (query_runner_ev client query_dict).2

/-- The inner loop of `run_deactivation`: run each query of a dataset through
`query_runner`, collecting the job ids; an exception aborts the loop and
propagates. -/
def run_queries_ev (client : Client) : List QueryDict → List Event × Except Exn (List String)
  | [] => ([], Except.ok [])
  | q :: qs =>
    match query_runner_ev client q with
    | (ev, Except.error e) => (ev, Except.error e)
    | (ev, Except.ok jobId) =>
      match run_queries_ev client qs with
      | (ev2, Except.error e) => (ev ++ ev2, Except.error e)
      | (ev2, Except.ok rest) => (ev ++ ev2, Except.ok (jobId :: rest))

/-- Function `run_deactivation(client, project_id, dataset_ids,
fq_deact_table, fq_pid_rid_table)`.  `sandboxFor` is the oracle for
`sb.check_and_create_sandbox_dataset(project_id, dataset_id)` and `gen` the
oracle for `generate_queries(client, project_id, dataset_id,
sandbox_dataset_id, deact_table_ref, pid_rid_table_ref)` (the client,
project and the two table references are fixed for the whole run, so they
are folded into the oracle; its two arguments are the dataset id and the
sandbox dataset id).  The result maps each dataset id to its job ids, in
order, as the Python dict does; an exception from `query_runner` propagates
immediately out of the whole function. -/
def run_deactivation_ev (client : Client) (project_id : String)
    (sandboxFor : String → String) (gen : String → String → List QueryDict) :
    List String → List Event × Except Exn (List (String × List String))
  | [] => ([], Except.ok [])
  | d :: ds =>
    match run_queries_ev client (gen d (sandboxFor d)) with
    | (ev, Except.error e) =>
      (Event.sandbox project_id d (sandboxFor d) :: ev, Except.error e)
    | (ev, Except.ok jids) =>
      match run_deactivation_ev client project_id sandboxFor gen ds with
      | (ev2, Except.error e) =>
        (Event.sandbox project_id d (sandboxFor d) :: (ev ++ ev2), Except.error e)
      | (ev2, Except.ok rest) =>
        (Event.sandbox project_id d (sandboxFor d) :: (ev ++ ev2),
         Except.ok ((d, jids) :: rest))

/-- All queries a run would generate, across datasets, in order. -/
def plannedQueries (sandboxFor : String → String)
    (gen : String → String → List QueryDict) (ds : List String) : List QueryDict :=
  ds.flatMap (fun d => gen d (sandboxFor d))

/-- The sequence of queries submitted in a trace, in order. -/
def submitsOf : List Event → List QueryDict
  | [] => []
  | Event.submit _ q :: es => q :: submitsOf es
  | Event.sandbox _ _ _ :: es => submitsOf es
  | Event.wait _ _ :: es => submitsOf es

/-- Whether `query_runner` completes without an exception for a given query
dict (deterministic, since the client behaviour is a function of the query). -/
def okF (client : Client) (qd : QueryDict) : Bool :=
  match (query_runner_ev client qd).2 with
  | Except.ok _ => true
  | Except.error _ => false

/-- The job id `query_runner` returns for a query that succeeds. -/
def jidOf (client : Client) (qd : QueryDict) : String :=
  match (query_runner_ev client qd).2 with
  | Except.ok j => j
  | Except.error _ => ""

/-- A string `m` contains `s` as a substring. -/
def Includes (m s : String) : Prop := ∃ a b, m = a ++ s ++ b

/-! ### CLI argument verification in `retraction/retract_deactivated_pids.py`

Python string primitives used by the two verifiers are modelled over
character lists: `pySplitDot` is Python's `str.split('.')` and counting is
`str.count('.')` (no overlaps possible for a one-character separator, so it
is the character count). -/

/-- Python `s.split('.')`, over the character list of `s`.  Always returns a
non-empty list; `[]` case of the inner match is unreachable. -/
def pySplitDot : List Char → List (List Char)
  | [] => [[]]
  | c :: cs =>
    if c = '.' then [] :: pySplitDot cs
    else
      match pySplitDot cs with
      | [] => [[c]]
      | p :: ps => (c :: p) :: ps

/-- The suffix of a character list after its last `'.'` (the whole list when
there is no dot): the specification-level reading of "the substring after
the last `'.'`". -/
def afterLastDot : List Char → List Char
  | [] => []
  | c :: cs => if c = '.' ∨ '.' ∈ cs then afterLastDot cs else c :: cs

/-- Function `fq_table_name_verification`: accept exactly the strings with two dots,
raise `argparse.ArgumentTypeError` (modelled as `Except.error` carrying the
message) otherwise. -/
def fq_table_name_verification (fq_table_name : String) : Except String String :=
  if fq_table_name.toList.count '.' = 2 then Except.ok fq_table_name
  else Except.error (fq_table_name ++ " should be of the form \x27project.dataset.table\x27")

/-- Function `fq_deactivated_table_verification`: first run
`fq_table_name_verification`, then require the last dot-separated component
to equal `consts.DEACTIVATED_PARTICIPANTS` (a constant from a module not in
the sources, so it is a parameter here).  `split('.')[-1]` is the last
element of the split, which always exists because the split is non-empty. -/
def fq_deactivated_table_verification (deactivated_participants : String)
    (fq_table_name : String) : Except String String :=
  match fq_table_name_verification fq_table_name with
  | Except.error m => Except.error m
  | Except.ok s =>
    if (pySplitDot s.toList).getLastD [] = deactivated_participants.toList then
      Except.ok s
    else
      Except.error (s ++ " should be of the form \x27project.dataset." ++
        deactivated_participants ++ "\x27")

/-! ### Model of `tools/add_hpo.py` -/

/-- The `UPDATE_SITE_MASKING_QUERY` Jinja template, rendered.  The template
has no block tags, so rendering is plain substitution of the five
placeholders.  (The Jinja environment itself lives in `common`, outside the
sources; its block-trimming options cannot affect a block-free template.) -/
def UPDATE_SITE_MASKING_QUERY (project_id pipeline_tables_dataset site_maskings_table
    lookup_tables_dataset hpo_site_id_mappings_table : String) : String :=
  "\nINSERT INTO `" ++ project_id ++ "." ++ pipeline_tables_dataset ++ "." ++
    site_maskings_table ++ "` (hpo_id, src_id)\n" ++
  "WITH available_new_src_ids AS (\n" ++
  "  SELECT \n" ++
  "    ROW_NUMBER() OVER(ORDER BY GENERATE_UUID()) AS temp_key,\n" ++
  "    CONCAT(\x27EHR site \x27, new_id) AS src_id\n" ++
  "  FROM UNNEST(GENERATE_ARRAY(100, 999)) AS new_id\n" ++
  "  WHERE new_id NOT IN (\n" ++
  "    SELECT CAST(SUBSTR(src_id, -3) AS INT64) \n" ++
  "    FROM `" ++ project_id ++ "." ++ pipeline_tables_dataset ++ "." ++
    site_maskings_table ++ "`\n" ++
  "    WHERE hpo_id != \x27rdr\x27\n" ++
  "  )\n" ++
  "),\n" ++
  "hpos_not_in_site_maskings AS (\n" ++
  "  SELECT\n" ++
  "    ROW_NUMBER() OVER() AS temp_key,\n" ++
  "    hpo_id\n" ++
  "  FROM `" ++ project_id ++ "." ++ lookup_tables_dataset ++ "." ++
    hpo_site_id_mappings_table ++ "`\n" ++
  "  WHERE hpo_id IS NOT NULL \n" ++
  "  AND hpo_id != \x27\x27 \n" ++
  "  AND LOWER(hpo_id) NOT IN (\n" ++
  "    SELECT LOWER(hpo_id) FROM `" ++ project_id ++ "." ++ pipeline_tables_dataset ++
    "." ++ site_maskings_table ++ "`\n" ++
  "  )\n" ++
  ")\n" ++
  "SELECT LOWER(h.hpo_id), a.src_id\n" ++
  "FROM available_new_src_ids AS a\n" ++
  "JOIN hpos_not_in_site_maskings AS h\n" ++
  "ON a.temp_key = h.temp_key\n"

/-- A BigQuery query job as observed by `update_site_masking_table`: only its
`errors` attribute is read. -/
structure QueryJob where
  errors : Option (List String)
deriving Repr, DecidableEq

/-- Function `update_site_masking_table()`.  Here `bqQuery` is the oracle for
`BigQueryClient(project_id).query(...)`; the five string arguments are the
application project id and the table/dataset name constants imported from
`common` and `constants.bq_utils` (modules not in the sources).  Mirrors the
source: render the query, submit it, raise `RuntimeError` with the job's
error message appended when `query_job.errors` is truthy, otherwise return
the query job. -/
def update_site_masking_table (bqQuery : String → QueryJob)
    (project_id pipeline_tables site_masking_table_id lookup_tables_dataset_id
      hpo_site_id_mappings_table_id : String) : Except String QueryJob :=
  let update_site_maskings_query :=
    UPDATE_SITE_MASKING_QUERY project_id pipeline_tables site_masking_table_id
      lookup_tables_dataset_id hpo_site_id_mappings_table_id
  let query_job := bqQuery update_site_maskings_query
  if errorsTruthy query_job.errors then
    Except.error ("Failed to update site_masking table. Error message: " ++
      pyOptErrors query_job.errors)
  else
    Except.ok query_job

/-- The externally visible operations `add_hpo.main` can perform, at the
granularity of the helper functions it calls (each of which performs file or
warehouse effects of its own). -/
inductive HpoAction where
  | addHpoSiteMappingsCsv (hpo_id hpo_name org_id hpo_site_mappings_path : String)
      (display_order : Option Int)
  | addLookups (hpo_id hpo_name org_id bucket_name : String)
      (display_order : Option Int)
  | updateSiteMaskingTable
deriving Repr, DecidableEq

/-- Function `add_hpo.main(hpo_id, org_id, hpo_name, bucket_name,
display_order, addition_type, hpo_site_mappings_path)` as a computation returning the list
of helper operations performed (in order) or the `RuntimeError` it raises.
`bucket_access` is the oracle for `bucket_access_configured` (a GCS
permission probe).  `LOGGER.info` calls are not modelled as effects.  The
`if/elif` chain has no `else`: any other `addition_type` falls through,
performing nothing and returning `None`. -/
def add_hpo_main (bucket_access : String → Bool)
    (hpo_id org_id hpo_name bucket_name : String) (display_order : Option Int)
    (addition_type hpo_site_mappings_path : String) : Except String (List HpoAction) :=
  if addition_type = "update_config" then
    Except.ok [HpoAction.addHpoSiteMappingsCsv hpo_id hpo_name org_id
      hpo_site_mappings_path display_order]
  else if addition_type = "update_lookup_tables" then
    if bucket_access bucket_name then
      Except.ok [HpoAction.addLookups hpo_id hpo_name org_id bucket_name display_order,
        HpoAction.updateSiteMaskingTable]
    else
      Except.error (addition_type ++ " was skipped because the bucket " ++
        bucket_name ++ " is inaccessible.")
  else
    Except.ok []

/-! ### Model of `tools/copy_dataset_to_output_prod.py` -/

/-- Python `str.upper()`, modelled character-wise (the strings involved are
ASCII). -/
def pyUpper (s : String) : String := String.mk (s.data.map Char.toUpper)

/-- The `TIER_LIST` constant. -/
def TIER_LIST : List String := ["controlled", "registered"]

/-- The `DEID_STAGE_LIST` constant. -/
def DEID_STAGE_LIST : List String := ["deid", "base", "clean"]

/-- Function `get_dataset_name(tier, release_tag, deid_stage)`: uppercase the first
character of `tier` (`tier[0].upper()`), uppercase the release tag, and
append `f'_{deid_stage}'` exactly when the stage is `'base'`. -/
def get_dataset_name (tier release_tag deid_stage : String) : String :=
  let tierChar := pyUpper (tier.take 1)
  let releaseTag := pyUpper release_tag
  let deidStage := if deid_stage = "base" then "_" ++ deid_stage else ""
  tierChar ++ releaseTag ++ deidStage

/-! ### Model of `cdr_cleaner/cleaning_rules/create_expected_ct_list.py` -/

/-- The `EXPECTED_CT_LIST` constant. -/
def EXPECTED_CT_LIST : String := "expected_ct_list"

/-- The `CREATE_EXPECTED_CT_LIST` Jinja template, rendered.  The template has
no block tags, so rendering is plain substitution of its six placeholders. -/
def CREATE_EXPECTED_CT_LIST (project_id dataset_id sandbox_dataset_id mapping_table
    storage_table_name pipeline_lookup_tables : String) : String :=
  "\ncreate or replace table `" ++ project_id ++ "." ++ sandbox_dataset_id ++ "." ++
    storage_table_name ++ "` as (\n" ++
  "-- get the list of all participants at the end of the RDR cleaning stage --\n" ++
  "with rdr_persons as (\n" ++
  "  SELECT distinct person_id\n" ++
  "  from `" ++ project_id ++ "." ++ dataset_id ++ ".person` rdr)\n" ++
  "\n" ++
  "-- get list of all participants identifying as AI/AN --\n" ++
  "-- may be removed once the program finalizes the inclusion of AI/AN participants --\n" ++
  ", aian_persons as (\n" ++
  "  select distinct person_id\n" ++
  "  from `" ++ project_id ++ "." ++ dataset_id ++ ".observation`\n" ++
  "  where observation_source_concept_id IN (1586140) AND value_source_concept_id IN (1586141)\n" ++
  ")\n" ++
  "\n" ++
  "-- get list of all participants who have completed The Basics survey --\n" ++
  ", has_the_basics as (\n" ++
  "     SELECT\n" ++
  "    distinct person_id\n" ++
  "  FROM `" ++ project_id ++ "." ++ dataset_id ++ ".concept_ancestor`\n" ++
  "  INNER JOIN `" ++ project_id ++ "." ++ dataset_id ++
    ".observation` o ON observation_concept_id = descendant_concept_id\n" ++
  "  INNER JOIN `" ++ project_id ++ "." ++ dataset_id ++
    ".concept` d ON d.concept_id = descendant_concept_id\n" ++
  "  WHERE ancestor_concept_id = 1586134\n" ++
  "\n" ++
  "  UNION DISTINCT\n" ++
  "  SELECT\n" ++
  "   distinct person_id\n" ++
  "  FROM `" ++ project_id ++ "." ++ dataset_id ++ ".concept`\n" ++
  "  JOIN `" ++ project_id ++ "." ++ dataset_id ++ ".concept_ancestor`\n" ++
  "    ON (concept_id = ancestor_concept_id)\n" ++
  "  JOIN `" ++ project_id ++ "." ++ dataset_id ++ ".observation`\n" ++
  "    ON (descendant_concept_id = observation_concept_id)\n" ++
  "  WHERE concept_class_id = \x27Module\x27\n" ++
  "    AND concept_name IN (\x27The Basics\x27)\n" ++
  "    AND questionnaire_response_id IS NOT NULL\n" ++
  ")\n" ++
  "\n" ++
  "-- get list of all participants who have not completed The Basics survey --\n" ++
  "-- can be used during debugging to determine who doesn\x27t have the basics --\n" ++
  ", missing_the_basics as (\n" ++
  "  SELECT distinct person_id\n" ++
  "  FROM rdr_persons\n" ++
  "  WHERE person_id not in (SELECT distinct person_id FROM has_the_basics)\n" ++
  ")\n" ++
  " -- get list of all participants that could be dropped due to bad birth date records --\n" ++
  ", bad_birthdate_records as (\n" ++
  "    SELECT person_id \n" ++
  "    FROM `" ++ project_id ++ "." ++ dataset_id ++ ".person` p \n" ++
  "    WHERE p.year_of_birth < 1800 \n" ++
  "    OR p.year_of_birth > (EXTRACT(YEAR FROM CURRENT_DATE()) - 17)\n" ++
  ")\n" ++
  "\n" ++
  "-- store the research_id of all participants --\n" ++
  "select m.research_id\n" ++
  "from rdr_persons p\n" ++
  "left join `" ++ project_id ++ "." ++ pipeline_lookup_tables ++ "." ++
    mapping_table ++ "` m\n" ++
  "using(person_id)\n" ++
  "where person_id in (select person_id from has_the_basics)\n" ++
  "AND person_id not in (select person_id from bad_birthdate_records)\n" ++
  ");"

/-- An instance of the `StoreExpectedCTList` cleaning rule: the three ids
passed to `__init__` plus the inherited `sandbox_table_for` method (the
`BaseCleaningRule` engine and the `table_namer` machinery behind it are not
part of the sources, so the method is carried as a function field). -/
structure StoreExpectedCTList where
  project_id : String
  dataset_id : String
  sandbox_dataset_id : String
  sandboxTableFor : String → String

/-- Method `StoreExpectedCTList.get_query_specs`.  Here `mapping_table` and
`pipeline_lookup_tables` are the `PRIMARY_PID_RID_MAPPING` and
`PIPELINE_TABLES` constants imported from `common` (a module not in the
sources).  Returns a single query dict `{cdr_consts.QUERY: <rendered SQL>}`. -/
def StoreExpectedCTList.get_query_specs (s : StoreExpectedCTList)
    (mapping_table pipeline_lookup_tables : String) : List QueryDict :=
  [{ query := CREATE_EXPECTED_CT_LIST s.project_id s.dataset_id s.sandbox_dataset_id
       mapping_table (s.sandboxTableFor EXPECTED_CT_LIST) pipeline_lookup_tables }]

/-- Method `StoreExpectedCTList.get_sandbox_tablenames`. -/
def StoreExpectedCTList.get_sandbox_tablenames (s : StoreExpectedCTList) : List String :=
  [s.sandboxTableFor EXPECTED_CT_LIST]

/-! ### Model of `analytics/cdr_ops/notebook_utils.py` and
`analytics/cdr_ops/rdr_export_qc.py` -/

/-- The module-level names defined by `notebook_utils.py`. -/
def notebook_utils_names : List String := ["IMPERSONATION_SCOPES", "execute"]

/-- The names `rdr_export_qc.py` imports from `analytics.cdr_ops.notebook_utils`
(line 32). -/
def rdr_export_qc_imported_names : List String :=
  ["execute", "IMPERSONATION_SCOPES", "render_message"]

/-- Python `from M import a, b, c`: succeeds exactly when every requested
name is defined by the module `M`; otherwise the statement raises
`ImportError` and the importing module never finishes loading. -/
def from_import_ok (moduleNames importedNames : List String) : Bool :=
  importedNames.all (fun n => moduleNames.contains n)

/-! ### Model of
`analytics/cdr_ops/controlled_tier_qc/check_controlled_tier_part2.py` -/

/-- One row of the duplicate-primary-key result frame collected for Query11:
the five columns selected by its SQL (`table_name`, `column_name`, the
duplicated key value, `row_counts_failure`, `Failure_primary_key_match`). -/
structure DupKeyRow where
  table_name : String
  column_name : String
  key_value : Int
  row_counts_failure : Int
  failure_primary_key_match : Int
deriving Repr, DecidableEq

/-- The per-check data the notebook collects from the warehouse before each
summary append: for every check except Query11, the values of the column the
notebook sums (`iloc[:, 2]` for Query1, `iloc[:, 3]` for Queries 2, 3, 4, 7,
8, 10, 12, 13, 14, 15, and `['row_count']` for Query16), one entry per
collected result row; for Query11, the rows of the concatenated
duplicate-key frame.  The notebook sorts the concatenated frames before
testing them, which changes neither a column sum nor emptiness, so sorting
is not modelled. -/
structure CtQcInputs where
  q1 : List Int
  q2 : List Int
  q3 : List Int
  q4 : List Int
  q7 : List Int
  q8 : List Int
  q10 : List Int
  q11 : List DupKeyRow
  q12 : List Int
  q13 : List Int
  q14 : List Int
  q15 : List Int
  q16 : List Int

/-- One row of the summary dataframe `df` (columns `query` and `result`). -/
structure SummaryRow where
  query : String
  result : String
deriving Repr, DecidableEq

/-- The summary dataframe built by the notebook: starting from an empty
frame, each check appends one row via `df.append({...}, ignore_index=True)`,
choosing `'PASS'` or `'Failure'` by its `if` condition, in notebook order. -/
def ctPart2Summary (inp : CtQcInputs) : List SummaryRow :=
  (if inp.q1.sum == 0 then
      [{ query := "Query1: all the birthdates are set to 06-15 in person table",
         result := "PASS" }]
    else
      [{ query := "Query1: all the birthdates are set to 06-15 in person table",
         result := "Failure" }]) ++
  (if inp.q2.sum == 0 then
      [{ query := "Query2: No dates before birth_date", result := "PASS" }]
    else
      [{ query := "Query2: No dates before birth_date", result := "Failure" }]) ++
  (if inp.q3.sum == 0 then
      [{ query := "Query3: No dates after death", result := "PASS" }]
    else
      [{ query := "Query3: No dates after death", result := "Failure" }]) ++
  (if inp.q4.sum == 0 then
      [{ query := "Query4: No dates earlier than 1980 in any table, except for the observation",
         result := "PASS" }]
    else
      [{ query := "Query4: No dates earlier than 1980 in any table, except for the observation",
         result := "Failure" }]) ++
  (if inp.q7.sum == 0 then
      [{ query := "Query7: All participants have basics", result := "PASS" }]
    else
      [{ query := "Query7: All participants have basics", result := "Failure" }]) ++
  (if inp.q8.sum == 0 then
      [{ query := "Query8: All participants WITH EHR data have said yes to EHR consents",
         result := "PASS" }]
    else
      [{ query := "Query8: All participants WITH EHR data have said yes to EHR consents",
         result := "Failure" }]) ++
  (if inp.q10.sum == 0 then
      [{ query := "Query10: All primary keys are in _ext", result := "PASS" }]
    else
      [{ query := "Query10: All primary keys are in _ext", result := "Failure" }]) ++
  (if inp.q11.isEmpty then
      [{ query := "Query11 No duplicated primary keys", result := "PASS" }]
    else
      [{ query := "Query11 No duplicated primary keys", result := "Failure" }]) ++
  (if inp.q12.sum == 0 then
      [{ query := "Query12: OMOP tables should have standard concept ids",
         result := "PASS" }]
    else
      [{ query := "Query12: OMOP tables should have standard concept ids",
         result := "Failure" }]) ++
  (if inp.q13.sum == 0 then
      [{ query := "Query13: observation concept ids (4013886, 4135376, 4271761) that have dates equal to birth dates should be set to CDR cutoff date",
         result := "PASS" }]
    else
      [{ query := "Query13: observation concept ids (4013886, 4135376, 4271761) that have dates equal to birth dates should be set to CDR cutoff date",
         result := "Failure" }]) ++
  (if inp.q14.sum == 0 then
      [{ query := "Query14: no birth_date in observation table except (4013886, 4135376, 4271761)",
         result := "PASS" }]
    else
      [{ query := "Query14: no birth_date in observation table except (4013886, 4135376, 4271761)",
         result := "Failure" }]) ++
  (if inp.q15.sum == 0 then
      [{ query := "Query15: All the descendants of ancestor_concept_id IN (4054924, 141771)  be dropped in condition table",
         result := "PASS" }]
    else
      [{ query := "Query15: All the descendants of ancestor_concept_id IN (4054924, 141771)  be dropped in condition table",
         result := "Failure" }]) ++
  (if inp.q16.sum == 0 then
      [{ query := "Query16: All the data from drug_era, condition_era, and dose_era tables is dropped",
         result := "PASS" }]
    else
      [{ query := "Query16: All the data from drug_era, condition_era, and dose_era tables is dropped",
         result := "Failure" }])

/-- The summary row a check with label `l` contributes when its pass
condition evaluates to `b`. -/
def passRow (l : String) (b : Bool) : SummaryRow :=
  { query := l, result := if b then "PASS" else "Failure" }

/-! ### Theorems -/

/-- C4: for every `StoreExpectedCTList` instance (and every value of the
`PRIMARY_PID_RID_MAPPING` and `PIPELINE_TABLES` constants), `get_query_specs`
returns a list of exactly one query dictionary whose `QUERY` entry is the
`CREATE_EXPECTED_CT_LIST` template rendered with exactly the instance's
`project_id`, `dataset_id`, `sandbox_dataset_id`, the primary pid-rid
mapping table, the sandboxed `expected_ct_list` table name and the pipeline
lookup dataset, and `get_sandbox_tablenames` returns exactly that one
sandbox table name. -/
theorem store_expected_ct_list_spec (s : StoreExpectedCTList)
    (mapping_table pipeline_lookup_tables : String) :
    s.get_query_specs mapping_table pipeline_lookup_tables =
      [{ query := CREATE_EXPECTED_CT_LIST s.project_id s.dataset_id s.sandbox_dataset_id
           mapping_table (s.sandboxTableFor "expected_ct_list") pipeline_lookup_tables }] ∧
    (s.get_query_specs mapping_table pipeline_lookup_tables).length = 1 ∧
    s.get_sandbox_tablenames = [s.sandboxTableFor "expected_ct_list"] :=
  ⟨rfl, rfl, rfl⟩

/-- Helper: an `if` choosing between the `'PASS'` row and the `'Failure'` row
with the same label is the `passRow` of the condition. -/
theorem ite_passRow (l : String) (b : Bool) :
    (if b then [({ query := l, result := "PASS" } : SummaryRow)]
     else [({ query := l, result := "Failure" } : SummaryRow)]) = [passRow l b] := by
  cases b <;> rfl

/-- C5: the controlled-tier QC notebook's summary dataframe has exactly one
row per executed check, in check-execution order, and each row's `result` is
`'PASS'` exactly when the per-table failure indicators collected for that
check sum to zero (for the duplicate-primary-key check Query11, exactly when
the collected duplicate-key frame is empty) and `'Failure'` otherwise. -/
theorem ct_part2_summary_spec (inp : CtQcInputs) :
    ctPart2Summary inp =
      [passRow "Query1: all the birthdates are set to 06-15 in person table"
         (inp.q1.sum == 0),
       passRow "Query2: No dates before birth_date" (inp.q2.sum == 0),
       passRow "Query3: No dates after death" (inp.q3.sum == 0),
       passRow "Query4: No dates earlier than 1980 in any table, except for the observation"
         (inp.q4.sum == 0),
       passRow "Query7: All participants have basics" (inp.q7.sum == 0),
       passRow "Query8: All participants WITH EHR data have said yes to EHR consents"
         (inp.q8.sum == 0),
       passRow "Query10: All primary keys are in _ext" (inp.q10.sum == 0),
       passRow "Query11 No duplicated primary keys" inp.q11.isEmpty,
       passRow "Query12: OMOP tables should have standard concept ids" (inp.q12.sum == 0),
       passRow "Query13: observation concept ids (4013886, 4135376, 4271761) that have dates equal to birth dates should be set to CDR cutoff date"
         (inp.q13.sum == 0),
       passRow "Query14: no birth_date in observation table except (4013886, 4135376, 4271761)"
         (inp.q14.sum == 0),
       passRow "Query15: All the descendants of ancestor_concept_id IN (4054924, 141771)  be dropped in condition table"
         (inp.q15.sum == 0),
       passRow "Query16: All the data from drug_era, condition_era, and dose_era tables is dropped"
         (inp.q16.sum == 0)] ∧
    (ctPart2Summary inp).length = 13 ∧
    (∀ l b, (passRow l b).result = "PASS" ↔ b = true) ∧
    (∀ l b, (passRow l b).result = "Failure" ↔ b = false) := by
  refine ⟨?_, ?_, ?_, ?_⟩
  · simp only [ctPart2Summary, ite_passRow]
    rfl
  · simp only [ctPart2Summary, ite_passRow]
    rfl
  · intro l b
    cases b <;> simp [passRow]
  · intro l b
    cases b <;> simp [passRow]

/-- C7: `update_site_masking_table` raises `RuntimeError` with the job's
error message appended exactly when the submitted site-masking update query
job reports errors (truthy `errors` attribute); when the job reports no
errors it returns the query job. -/
theorem update_site_masking_table_spec (bqQuery : String → QueryJob)
    (project_id pipeline_tables site_masking_table_id lookup_tables_dataset_id
      hpo_site_id_mappings_table_id : String) :
    (errorsTruthy (bqQuery (UPDATE_SITE_MASKING_QUERY project_id pipeline_tables
        site_masking_table_id lookup_tables_dataset_id
        hpo_site_id_mappings_table_id)).errors = true →
      update_site_masking_table bqQuery project_id pipeline_tables site_masking_table_id
        lookup_tables_dataset_id hpo_site_id_mappings_table_id =
      Except.error ("Failed to update site_masking table. Error message: " ++
        pyOptErrors (bqQuery (UPDATE_SITE_MASKING_QUERY project_id pipeline_tables
          site_masking_table_id lookup_tables_dataset_id
          hpo_site_id_mappings_table_id)).errors)) ∧
    (errorsTruthy (bqQuery (UPDATE_SITE_MASKING_QUERY project_id pipeline_tables
        site_masking_table_id lookup_tables_dataset_id
        hpo_site_id_mappings_table_id)).errors = false →
      update_site_masking_table bqQuery project_id pipeline_tables site_masking_table_id
        lookup_tables_dataset_id hpo_site_id_mappings_table_id =
      Except.ok (bqQuery (UPDATE_SITE_MASKING_QUERY project_id pipeline_tables
        site_masking_table_id lookup_tables_dataset_id
        hpo_site_id_mappings_table_id))) := by
  constructor <;> intro h <;> simp [update_site_masking_table, h]

/-- Witness for C7: a job with one error record makes the function raise the
`RuntimeError`; a job with `errors = None` is returned unchanged. -/
theorem update_site_masking_table_spec_witness :
    update_site_masking_table (fun _ => { errors := some ["boom"] }) "p" "pt" "sm" "lt" "hs" =
      Except.error ("Failed to update site_masking table. Error message: " ++
        pyOptErrors (some ["boom"])) ∧
    update_site_masking_table (fun _ => { errors := none }) "p" "pt" "sm" "lt" "hs" =
      Except.ok { errors := none } :=
  ⟨(update_site_masking_table_spec (fun _ => { errors := some ["boom"] })
      "p" "pt" "sm" "lt" "hs").1 rfl,
   (update_site_masking_table_spec (fun _ => { errors := none })
      "p" "pt" "sm" "lt" "hs").2 rfl⟩

/-- C8: for every `addition_type` other than `"update_config"` and
`"update_lookup_tables"`, `add_hpo.main` performs no operation at all — no
file write, no query, no raised error — and returns `None` (modelled as
success with an empty operation list). -/
theorem add_hpo_main_other_type (bucket_access : String → Bool)
    (hpo_id org_id hpo_name bucket_name : String) (display_order : Option Int)
    (addition_type hpo_site_mappings_path : String)
    (h1 : addition_type ≠ "update_config")
    (h2 : addition_type ≠ "update_lookup_tables") :
    add_hpo_main bucket_access hpo_id org_id hpo_name bucket_name display_order
      addition_type hpo_site_mappings_path = Except.ok [] := by
  simp [add_hpo_main, h1, h2]

/-- Witness for C8 at the concrete addition type `"update_nothing"`. -/
theorem add_hpo_main_other_type_witness :
    ("update_nothing" : String) ≠ "update_config" ∧
    ("update_nothing" : String) ≠ "update_lookup_tables" ∧
    add_hpo_main (fun _ => true) "hpo" "org" "name" "bucket" none
      "update_nothing" "path" = Except.ok [] :=
  ⟨by decide, by decide,
   add_hpo_main_other_type (fun _ => true) "hpo" "org" "name" "bucket" none
     "update_nothing" "path" (by decide) (by decide)⟩

/-- C9: for every tier in `TIER_LIST`, every release tag and every deid stage
in `DEID_STAGE_LIST`, `get_dataset_name` returns the uppercased first letter
of the tier followed by the uppercased release tag, with `'_base'` appended
exactly when the stage is `'base'`; in particular the stages `'deid'` and
`'clean'` produce the identical dataset name. -/
theorem get_dataset_name_spec (tier release_tag deid_stage : String)
    (htier : tier ∈ TIER_LIST) (hstage : deid_stage ∈ DEID_STAGE_LIST) :
    get_dataset_name tier release_tag deid_stage =
      (if tier = "controlled" then "C" else "R") ++ pyUpper release_tag ++
        (if deid_stage = "base" then "_base" else "") ∧
    get_dataset_name tier release_tag "deid" = get_dataset_name tier release_tag "clean" := by
  have hC : pyUpper ("controlled".take 1) = "C" := by decide
  have hR : pyUpper ("registered".take 1) = "R" := by decide
  simp only [TIER_LIST, DEID_STAGE_LIST, List.mem_cons, List.mem_singleton,
    List.not_mem_nil, or_false] at htier hstage
  rcases htier with h | h <;> subst h <;>
    rcases hstage with h | h | h <;> subst h <;>
      simp [get_dataset_name, hC, hR]

/-- Witness for C9 at tier `"controlled"`, tag `"2022q1r3"`, stage `"base"`. -/
theorem get_dataset_name_spec_witness :
    ("controlled" : String) ∈ TIER_LIST ∧ ("base" : String) ∈ DEID_STAGE_LIST ∧
    (get_dataset_name "controlled" "2022q1r3" "base" =
      (if ("controlled" : String) = "controlled" then "C" else "R") ++
        pyUpper "2022q1r3" ++
        (if ("base" : String) = "base" then "_base" else "") ∧
     get_dataset_name "controlled" "2022q1r3" "deid" =
       get_dataset_name "controlled" "2022q1r3" "clean") :=
  ⟨by decide, by decide,
   get_dataset_name_spec "controlled" "2022q1r3" "base" (by decide) (by decide)⟩

/-- C10: the `from ... import` at line 32 of `rdr_export_qc.py` requests the
name `render_message` from `analytics.cdr_ops.notebook_utils`, which defines
only `IMPERSONATION_SCOPES` and `execute`; the import therefore fails
(raising `ImportError`), so the module never loads and none of its QC
queries can run. -/
theorem rdr_export_qc_import_fails :
    from_import_ok notebook_utils_names rdr_export_qc_imported_names = false ∧
    "render_message" ∈ rdr_export_qc_imported_names ∧
    "render_message" ∉ notebook_utils_names := by decide

/-- Helper: `pySplitDot` never returns the empty list. -/
theorem pySplitDot_ne_nil (l : List Char) : pySplitDot l ≠ [] := by
  induction l with
  | nil => simp [pySplitDot]
  | cons c cs ih =>
    by_cases hc : c = '.'
    · simp [pySplitDot, hc]
    · cases h : pySplitDot cs with
      | nil => exact absurd h ih
      | cons p ps => simp [pySplitDot, hc, h]

/-- Helper: splitting a dot-free list gives the singleton of the list. -/
theorem pySplitDot_no_dot (l : List Char) (h : '.' ∉ l) : pySplitDot l = [l] := by
  induction l with
  | nil => rfl
  | cons c cs ih =>
    have hc : ¬ c = '.' := fun e => h (e ▸ List.mem_cons_self c cs)
    have hcs : '.' ∉ cs := fun m => h (List.mem_cons_of_mem _ m)
    simp [pySplitDot, hc, ih hcs]

/-- Helper: splitting a list containing a dot gives at least two pieces. -/
theorem pySplitDot_mem_dot (l : List Char) (h : '.' ∈ l) :
    ∃ p ps, pySplitDot l = p :: ps ∧ ps ≠ [] := by
  induction l with
  | nil => cases h
  | cons c cs ih =>
    by_cases hc : c = '.'
    · exact ⟨[], pySplitDot cs, by simp [pySplitDot, hc], pySplitDot_ne_nil cs⟩
    · have hcs : '.' ∈ cs := by
        rcases List.mem_cons.mp h with h | h
        · exact absurd h.symm hc
        · exact h
      obtain ⟨p, ps, hps, hne⟩ := ih hcs
      exact ⟨c :: p, ps, by simp [pySplitDot, hc, hps], hne⟩

/-- Helper: `getLastD` of a non-empty list ignores the default. -/
theorem getLastD_congr {α : Type} (t : List α) (d1 d2 : α) (h : t ≠ []) :
    t.getLastD d1 = t.getLastD d2 := by
  cases t with
  | nil => cases h rfl
  | cons a t => rw [List.getLastD_cons, List.getLastD_cons]

/-- Helper: the last piece of Python's `split('.')` is the suffix after the
last dot. -/
theorem pySplitDot_getLastD (l : List Char) :
    (pySplitDot l).getLastD [] = afterLastDot l := by
  induction l with
  | nil => rfl
  | cons c cs ih =>
    by_cases hc : c = '.'
    · have ha : afterLastDot (c :: cs) = afterLastDot cs := by
        simp [afterLastDot, hc]
      have hsplit : pySplitDot (c :: cs) = [] :: pySplitDot cs := by
        simp [pySplitDot, hc]
      rw [ha, ← ih, hsplit, List.getLastD_cons]
    · by_cases hm : '.' ∈ cs
      · obtain ⟨p, ps, hps, hne⟩ := pySplitDot_mem_dot cs hm
        have ha : afterLastDot (c :: cs) = afterLastDot cs := by
          simp [afterLastDot, hc, hm]
        have hsplit : pySplitDot (c :: cs) = (c :: p) :: ps := by
          simp [pySplitDot, hc, hps]
        rw [ha, ← ih, hps, hsplit, List.getLastD_cons, List.getLastD_cons]
        exact getLastD_congr ps _ _ hne
      · have hsplit : pySplitDot (c :: cs) = [c :: cs] := by
          simp [pySplitDot, hc, pySplitDot_no_dot cs hm]
        have ha : afterLastDot (c :: cs) = c :: cs := by
          simp [afterLastDot, hc, hm]
        rw [hsplit, ha]
        rfl

/-- C6: `fq_table_name_verification` returns its argument unchanged exactly
when the argument contains exactly two `'.'` characters and raises
`ArgumentTypeError` otherwise; `fq_deactivated_table_verification`
additionally requires the substring after the last `'.'` to equal the
deactivated-participants table name, returning the argument unchanged
exactly when both conditions hold and raising `ArgumentTypeError`
otherwise. -/
theorem fq_verification_spec (deact fq : String) :
    (fq_table_name_verification fq = Except.ok fq ↔ fq.toList.count '.' = 2) ∧
    ((∃ m, fq_table_name_verification fq = Except.error m) ↔
      ¬ fq.toList.count '.' = 2) ∧
    (fq_deactivated_table_verification deact fq = Except.ok fq ↔
      (fq.toList.count '.' = 2 ∧ afterLastDot fq.toList = deact.toList)) ∧
    ((∃ m, fq_deactivated_table_verification deact fq = Except.error m) ↔
      ¬ (fq.toList.count '.' = 2 ∧ afterLastDot fq.toList = deact.toList)) := by
  by_cases h2 : fq.toList.count '.' = 2
  · have e1 : fq_table_name_verification fq = Except.ok fq := by
      unfold fq_table_name_verification
      rw [if_pos h2]
    by_cases hl : afterLastDot fq.toList = deact.toList
    · have e2 : fq_deactivated_table_verification deact fq = Except.ok fq := by
        unfold fq_deactivated_table_verification
        rw [e1]
        show (if (pySplitDot fq.toList).getLastD [] = deact.toList then Except.ok fq
          else Except.error (fq ++ " should be of the form \x27project.dataset." ++
            deact ++ "\x27")) = Except.ok fq
        rw [show (pySplitDot fq.toList).getLastD [] = afterLastDot fq.toList from
          pySplitDot_getLastD fq.toList]
        rw [if_pos hl]
      refine ⟨⟨fun _ => h2, fun _ => e1⟩, ?_, ⟨fun _ => ⟨h2, hl⟩, fun _ => e2⟩, ?_⟩
      · constructor
        · rintro ⟨m, hm⟩
          rw [e1] at hm
          exact absurd hm (by simp)
        · intro hn
          exact absurd h2 hn
      · constructor
        · rintro ⟨m, hm⟩
          rw [e2] at hm
          exact absurd hm (by simp)
        · intro hn
          exact absurd ⟨h2, hl⟩ hn
    · have e2 : fq_deactivated_table_verification deact fq =
          Except.error (fq ++ " should be of the form \x27project.dataset." ++
            deact ++ "\x27") := by
        unfold fq_deactivated_table_verification
        rw [e1]
        show (if (pySplitDot fq.toList).getLastD [] = deact.toList then Except.ok fq
          else Except.error (fq ++ " should be of the form \x27project.dataset." ++
            deact ++ "\x27")) = _
        rw [show (pySplitDot fq.toList).getLastD [] = afterLastDot fq.toList from
          pySplitDot_getLastD fq.toList]
        rw [if_neg hl]
      refine ⟨⟨fun _ => h2, fun _ => e1⟩, ?_, ?_, ?_⟩
      · constructor
        · rintro ⟨m, hm⟩
          rw [e1] at hm
          exact absurd hm (by simp)
        · intro hn
          exact absurd h2 hn
      · constructor
        · intro h
          rw [e2] at h
          exact absurd h (by simp)
        · rintro ⟨-, hb⟩
          exact absurd hb hl
      · exact ⟨fun _ => fun hab => absurd hab.2 hl, fun _ => ⟨_, e2⟩⟩
  · have e1 : fq_table_name_verification fq =
        Except.error (fq ++ " should be of the form \x27project.dataset.table\x27") := by
      unfold fq_table_name_verification
      rw [if_neg h2]
    have e2 : fq_deactivated_table_verification deact fq =
        Except.error (fq ++ " should be of the form \x27project.dataset.table\x27") := by
      unfold fq_deactivated_table_verification
      rw [e1]
    refine ⟨?_, ⟨fun _ => h2, fun _ => ⟨_, e1⟩⟩, ?_, ?_⟩
    · constructor
      · intro h
        rw [e1] at h
        exact absurd h (by simp)
      · intro hc
        exact absurd hc h2
    · constructor
      · intro h
        rw [e2] at h
        exact absurd h (by simp)
      · rintro ⟨ha, -⟩
        exact absurd ha h2
    · exact ⟨fun _ => fun hab => absurd hab.1 h2, fun _ => ⟨_, e2⟩⟩

/-- Witness for C6: a three-component name ending in the deactivated table
name passes both verifiers unchanged. -/
theorem fq_verification_spec_witness :
    fq_table_name_verification "proj.ds._deactivated_participants" =
      Except.ok "proj.ds._deactivated_participants" ∧
    fq_deactivated_table_verification "_deactivated_participants"
      "proj.ds._deactivated_participants" =
      Except.ok "proj.ds._deactivated_participants" :=
  ⟨(fq_verification_spec "_deactivated_participants"
      "proj.ds._deactivated_participants").1.mpr (by decide),
   (fq_verification_spec "_deactivated_participants"
      "proj.ds._deactivated_participants").2.2.1.mpr ⟨by decide, by decide⟩⟩

/-- C1: `query_runner` either returns the BigQuery job id of the submitted
query, or fails as follows: a `GoogleCloudError` or `TimeoutError` raised by
the client while submitting or while awaiting the query is re-raised
unchanged (after being logged); when the completed job reports errors, a
`RuntimeError` is raised whose message includes the job id, the reported
errors and the query text. -/
theorem query_runner_spec (client : Client) (qd : QueryDict) :
    (∀ e, client.submit qd (mkJobConfig client qd) = SubmitResult.raised e →
      query_runner client qd = Except.error (Exn.cloud e)) ∧
    (∀ jid e, client.submit qd (mkJobConfig client qd) =
        SubmitResult.job jid (AwaitResult.raised e) →
      query_runner client qd = Except.error (Exn.cloud e)) ∧
    (∀ jid errs, client.submit qd (mkJobConfig client qd) =
        SubmitResult.job jid (AwaitResult.done errs) →
      errorsTruthy errs = true →
      query_runner client qd =
        Except.error (Exn.runtimeError (runtimeErrMsg jid (errs.getD []) qd.query)) ∧
      Includes (runtimeErrMsg jid (errs.getD []) qd.query) jid ∧
      Includes (runtimeErrMsg jid (errs.getD []) qd.query) (pyStr (errs.getD [])) ∧
      Includes (runtimeErrMsg jid (errs.getD []) qd.query) qd.query) ∧
    (∀ jid errs, client.submit qd (mkJobConfig client qd) =
        SubmitResult.job jid (AwaitResult.done errs) →
      errorsTruthy errs = false →
      query_runner client qd = Except.ok jid) := by
  refine ⟨?_, ?_, ?_, ?_⟩
  · intro e h
    simp [query_runner, query_runner_ev, h]
  · intro jid e h
    simp [query_runner, query_runner_ev, h]
  · intro jid errs h ht
    refine ⟨by simp [query_runner, query_runner_ev, h, ht], ?_, ?_, ?_⟩
    · refine ⟨"Job ", " failed with error " ++
        (pyStr (errs.getD []) ++ (" for query" ++ qd.query)), ?_⟩
      simp [runtimeErrMsg, String.append_assoc]
    · refine ⟨"Job " ++ jid ++ " failed with error ", " for query" ++ qd.query, ?_⟩
      simp [runtimeErrMsg, String.append_assoc]
    · refine ⟨"Job " ++ jid ++ " failed with error " ++ pyStr (errs.getD []) ++
        " for query", "", ?_⟩
      simp [runtimeErrMsg, String.append_assoc, String.append_empty]
  · intro jid errs h hf
    simp [query_runner, query_runner_ev, h, hf]

/-- Witness for C1: four concrete client behaviours exercise the four
branches — submission raising, await raising, a completed job with errors,
and a clean job. -/
theorem query_runner_spec_witness :
    query_runner ⟨0, "p", fun _ _ => SubmitResult.raised (CloudExn.googleCloudError "boom")⟩
        { query := "q" } =
      Except.error (Exn.cloud (CloudExn.googleCloudError "boom")) ∧
    query_runner ⟨1, "p", fun _ _ => SubmitResult.job "j1"
          (AwaitResult.raised (CloudExn.timeoutError "slow"))⟩ { query := "q" } =
      Except.error (Exn.cloud (CloudExn.timeoutError "slow")) ∧
    (query_runner ⟨2, "p", fun _ _ => SubmitResult.job "j2"
          (AwaitResult.done (some ["oops"]))⟩ { query := "q" } =
        Except.error (Exn.runtimeError (runtimeErrMsg "j2" ["oops"] "q")) ∧
      Includes (runtimeErrMsg "j2" ["oops"] "q") "j2" ∧
      Includes (runtimeErrMsg "j2" ["oops"] "q") (pyStr ["oops"]) ∧
      Includes (runtimeErrMsg "j2" ["oops"] "q") "q") ∧
    query_runner ⟨3, "p", fun _ _ => SubmitResult.job "j4" (AwaitResult.done none)⟩
        { query := "q" } =
      Except.ok "j4" :=
  ⟨(query_runner_spec ⟨0, "p", fun _ _ =>
      SubmitResult.raised (CloudExn.googleCloudError "boom")⟩ { query := "q" }).1 _ rfl,
   (query_runner_spec ⟨1, "p", fun _ _ => SubmitResult.job "j1"
      (AwaitResult.raised (CloudExn.timeoutError "slow"))⟩ { query := "q" }).2.1 _ _ rfl,
   (query_runner_spec ⟨2, "p", fun _ _ => SubmitResult.job "j2"
      (AwaitResult.done (some ["oops"]))⟩ { query := "q" }).2.2.1 "j2" (some ["oops"]) rfl rfl,
   (query_runner_spec ⟨3, "p", fun _ _ => SubmitResult.job "j4"
      (AwaitResult.done none)⟩ { query := "q" }).2.2.2 "j4" none rfl rfl⟩

/-- Helper: behaviour of `query_runner_ev` on a query whose submission
completes with falsy errors. -/
theorem query_runner_ev_ok (client : Client) (qd : QueryDict) (jid : String)
    (errs : Option (List String))
    (h : client.submit qd (mkJobConfig client qd) =
      SubmitResult.job jid (AwaitResult.done errs))
    (he : errorsTruthy errs = false) :
    query_runner_ev client qd =
      ([Event.submit client.id qd, Event.wait client.id jid], Except.ok jid) := by
  simp [query_runner_ev, h, he]

/-- Helper: the inner query loop of `run_deactivation` under an
always-succeeding client submits and awaits each query in order and collects
the job ids in order. -/
theorem run_queries_ev_all_ok (client : Client) (jid : QueryDict → String)
    (errs : QueryDict → Option (List String))
    (hok : ∀ qd, client.submit qd (mkJobConfig client qd) =
      SubmitResult.job (jid qd) (AwaitResult.done (errs qd)))
    (herr : ∀ qd, errorsTruthy (errs qd) = false) (qs : List QueryDict) :
    run_queries_ev client qs =
      (qs.flatMap (fun q => [Event.submit client.id q, Event.wait client.id (jid q)]),
       Except.ok (qs.map jid)) := by
  induction qs with
  | nil => rfl
  | cons q qs ih =>
    rw [run_queries_ev, query_runner_ev_ok client q (jid q) (errs q) (hok q) (herr q), ih]
    simp

/-- C2: `run_deactivation` is strictly sequential.  When every submission
succeeds, the event trace is exactly: for each dataset id in the given
order, the sandbox-dataset creation followed by, for each generated query in
its generated order, the submission of that query immediately followed by
the synchronous wait on its job — so each job is waited on before the next
query is submitted, and every submission and wait is performed by the single
client object passed in; the returned map lists each dataset's job ids in
order. -/
theorem run_deactivation_sequential (client : Client) (project_id : String)
    (sandboxFor : String → String) (gen : String → String → List QueryDict)
    (jid : QueryDict → String) (errs : QueryDict → Option (List String))
    (hok : ∀ qd, client.submit qd (mkJobConfig client qd) =
      SubmitResult.job (jid qd) (AwaitResult.done (errs qd)))
    (herr : ∀ qd, errorsTruthy (errs qd) = false) (dataset_ids : List String) :
    run_deactivation_ev client project_id sandboxFor gen dataset_ids =
      (dataset_ids.flatMap (fun d =>
         Event.sandbox project_id d (sandboxFor d) ::
           (gen d (sandboxFor d)).flatMap
             (fun q => [Event.submit client.id q, Event.wait client.id (jid q)])),
       Except.ok (dataset_ids.map (fun d => (d, (gen d (sandboxFor d)).map jid)))) := by
  induction dataset_ids with
  | nil => rfl
  | cons d ds ih =>
    rw [run_deactivation_ev, run_queries_ev_all_ok client jid errs hok herr, ih]
    simp

/-- Witness for C2: a two-dataset run with two queries per dataset produces
the fully interleaved submit/wait trace and the per-dataset job-id map. -/
theorem run_deactivation_sequential_witness :
    run_deactivation_ev
      ⟨7, "p", fun qd _ => SubmitResult.job ("job_" ++ qd.query) (AwaitResult.done none)⟩
      "proj" (fun d => d ++ "_sb")
      (fun d _ => [{ query := d ++ "_a" }, { query := d ++ "_b" }])
      ["ds1", "ds2"] =
    ([Event.sandbox "proj" "ds1" "ds1_sb",
      Event.submit 7 { query := "ds1_a" }, Event.wait 7 "job_ds1_a",
      Event.submit 7 { query := "ds1_b" }, Event.wait 7 "job_ds1_b",
      Event.sandbox "proj" "ds2" "ds2_sb",
      Event.submit 7 { query := "ds2_a" }, Event.wait 7 "job_ds2_a",
      Event.submit 7 { query := "ds2_b" }, Event.wait 7 "job_ds2_b"],
     Except.ok [("ds1", ["job_ds1_a", "job_ds1_b"]),
                ("ds2", ["job_ds2_a", "job_ds2_b"])]) :=
  run_deactivation_sequential
    ⟨7, "p", fun qd _ => SubmitResult.job ("job_" ++ qd.query) (AwaitResult.done none)⟩
    "proj" (fun d => d ++ "_sb")
    (fun d _ => [{ query := d ++ "_a" }, { query := d ++ "_b" }])
    (fun qd => "job_" ++ qd.query) (fun _ => none)
    (fun _ => rfl) (fun _ => rfl) ["ds1", "ds2"]

/-- Helper: `submitsOf` distributes over trace concatenation. -/
theorem submitsOf_append (a b : List Event) :
    submitsOf (a ++ b) = submitsOf a ++ submitsOf b := by
  induction a with
  | nil => rfl
  | cons e es ih => cases e <;> simp [submitsOf, ih]

/-- Helper: `query_runner` submits its query exactly once, whatever the
client does. -/
theorem submitsOf_query_runner (client : Client) (qd : QueryDict) :
    submitsOf (query_runner_ev client qd).1 = [qd] := by
  unfold query_runner_ev
  cases h : client.submit qd (mkJobConfig client qd) with
  | raised e => simp [submitsOf]
  | job jid ar =>
    cases ar with
    | raised e => simp [submitsOf]
    | done errs => by_cases he : errorsTruthy errs <;> simp [he, submitsOf]

/-- Helper: appending after a list fully consumed by `dropWhile`. -/
theorem dropWhile_append_nil {α : Type} (p : α → Bool) (l1 l2 : List α)
    (h : l1.dropWhile p = []) : (l1 ++ l2).dropWhile p = l2.dropWhile p := by
  induction l1 with
  | nil => rfl
  | cons a l1 ih =>
    rw [List.dropWhile_cons] at h
    by_cases hp : p a
    · rw [if_pos hp] at h
      rw [List.cons_append, List.dropWhile_cons, if_pos hp]
      exact ih h
    · rw [if_neg hp] at h
      cases h

/-- Helper: `takeWhile` over an append whose first part is fully taken. -/
theorem takeWhile_append_nil {α : Type} (p : α → Bool) (l1 l2 : List α)
    (h : l1.dropWhile p = []) : (l1 ++ l2).takeWhile p = l1 ++ l2.takeWhile p := by
  induction l1 with
  | nil => rfl
  | cons a l1 ih =>
    rw [List.dropWhile_cons] at h
    by_cases hp : p a
    · rw [if_pos hp] at h
      rw [List.cons_append, List.takeWhile_cons, if_pos hp, ih h, List.cons_append]
    · rw [if_neg hp] at h
      cases h

/-- Helper: a list fully consumed by `dropWhile` is its own `takeWhile`. -/
theorem takeWhile_eq_self_of {α : Type} (p : α → Bool) (l : List α)
    (h : l.dropWhile p = []) : l.takeWhile p = l := by
  have h2 := List.takeWhile_append_dropWhile (p := p) (l := l)
  rw [h, List.append_nil] at h2
  exact h2

/-- Helper: `dropWhile` over an append whose first part retains a suffix. -/
theorem dropWhile_append_cons {α : Type} (p : α → Bool) (l1 l2 : List α) (q : α)
    (rest : List α) (h : l1.dropWhile p = q :: rest) :
    (l1 ++ l2).dropWhile p = q :: (rest ++ l2) := by
  induction l1 with
  | nil => cases h
  | cons a l1 ih =>
    rw [List.dropWhile_cons] at h
    by_cases hp : p a
    · rw [if_pos hp] at h
      rw [List.cons_append, List.dropWhile_cons, if_pos hp]
      exact ih h
    · rw [if_neg hp] at h
      injection h with h1 h2
      subst h1
      subst h2
      rw [List.cons_append, List.dropWhile_cons, if_neg hp]

/-- Helper: `takeWhile` over an append whose first part retains a suffix. -/
theorem takeWhile_append_cons {α : Type} (p : α → Bool) (l1 l2 : List α) (q : α)
    (rest : List α) (h : l1.dropWhile p = q :: rest) :
    (l1 ++ l2).takeWhile p = l1.takeWhile p := by
  induction l1 with
  | nil => cases h
  | cons a l1 ih =>
    rw [List.dropWhile_cons] at h
    by_cases hp : p a
    · rw [if_pos hp] at h
      rw [List.cons_append, List.takeWhile_cons p a (l1 ++ l2), if_pos hp,
        List.takeWhile_cons p a l1, if_pos hp, ih h]
    · rw [List.cons_append, List.takeWhile_cons p a (l1 ++ l2), if_neg hp,
        List.takeWhile_cons p a l1, if_neg hp]

/-- Helper: the head retained by `dropWhile` fails the predicate. -/
theorem dropWhile_head_false {α : Type} (p : α → Bool) (l : List α) (q : α)
    (rest : List α) (h : l.dropWhile p = q :: rest) : p q = false := by
  have h2 := List.head_dropWhile_not p l
  rw [h] at h2
  simpa using h2

/-- Helper: a query on which `query_runner` fails produces some exception. -/
theorem okF_false_error (client : Client) (qd : QueryDict)
    (h : okF client qd = false) :
    ∃ e, (query_runner_ev client qd).2 = Except.error e := by
  unfold okF at h
  cases he : (query_runner_ev client qd).2 with
  | ok j =>
    rw [he] at h
    simp at h
  | error e => exact ⟨e, rfl⟩

/-- Helper: `plannedQueries` unfolds over a cons of dataset ids. -/
theorem plannedQueries_cons (sandboxFor : String → String)
    (gen : String → String → List QueryDict) (d : String) (ds : List String) :
    plannedQueries sandboxFor gen (d :: ds) =
      gen d (sandboxFor d) ++ plannedQueries sandboxFor gen ds := by
  simp [plannedQueries]

/-- Helper: complete case analysis of the inner query loop: either every
query succeeds — all of them are submitted, in order, and the job ids are
returned — or there is a first failing query, everything before it plus that
query itself is submitted, and the loop raises that query's own exception. -/
theorem run_queries_ev_cases (client : Client) (qs : List QueryDict) :
    (qs.dropWhile (okF client) = [] ∧
      submitsOf (run_queries_ev client qs).1 = qs ∧
      (run_queries_ev client qs).2 = Except.ok (qs.map (jidOf client))) ∨
    (∃ q rest, qs.dropWhile (okF client) = q :: rest ∧
      submitsOf (run_queries_ev client qs).1 = qs.takeWhile (okF client) ++ [q] ∧
      ∃ e, (query_runner_ev client q).2 = Except.error e ∧
        (run_queries_ev client qs).2 = Except.error e) := by
  induction qs with
  | nil => exact Or.inl ⟨rfl, rfl, rfl⟩
  | cons q qs ih =>
    rcases hqe : query_runner_ev client q with ⟨ev, r⟩
    have hsub : submitsOf ev = [q] := by
      have h2 := submitsOf_query_runner client q
      rw [hqe] at h2
      exact h2
    cases r with
    | error e =>
      have hq : okF client q = false := by
        unfold okF
        rw [hqe]
      have hrun : run_queries_ev client (q :: qs) = (ev, Except.error e) := by
        rw [run_queries_ev, hqe]
      refine Or.inr ⟨q, qs, ?_, ?_, e, ?_, ?_⟩
      · rw [List.dropWhile_cons, if_neg (by simp [hq])]
      · rw [hrun, List.takeWhile_cons, if_neg (by simp [hq])]
        simpa using hsub
      · rw [hqe]
      · rw [hrun]
    | ok jobId =>
      have hq : okF client q = true := by
        unfold okF
        rw [hqe]
      have hjid : jidOf client q = jobId := by
        unfold jidOf
        rw [hqe]
      rcases hre : run_queries_ev client qs with ⟨ev2, r2⟩
      cases r2 with
      | error e =>
        have hrun : run_queries_ev client (q :: qs) = (ev ++ ev2, Except.error e) := by
          rw [run_queries_ev, hqe, hre]
        rcases ih with ⟨hdrop, hsubs, hres⟩ | ⟨q0, rest, hdrop, hsubs, e1, he1, he2⟩
        · rw [hre] at hres
          exact absurd hres (by simp)
        · rw [hre] at hsubs he2
          have he : e1 = e := by simpa using he2.symm
          subst he
          refine Or.inr ⟨q0, rest, ?_, ?_, e1, he1, ?_⟩
          · rw [List.dropWhile_cons, if_pos (by simp [hq])]
            exact hdrop
          · rw [hrun, List.takeWhile_cons, if_pos (by simp [hq])]
            show submitsOf (ev ++ ev2) = _
            rw [submitsOf_append, hsub, hsubs]
            simp
          · rw [hrun]
      | ok rest2 =>
        have hrun : run_queries_ev client (q :: qs) =
            (ev ++ ev2, Except.ok (jobId :: rest2)) := by
          rw [run_queries_ev, hqe, hre]
        rcases ih with ⟨hdrop, hsubs, hres⟩ | ⟨q0, rest, hdrop, hsubs, e1, he1, he2⟩
        · rw [hre] at hres hsubs
          have h3 : rest2 = qs.map (jidOf client) := by simpa using hres
          refine Or.inl ⟨?_, ?_, ?_⟩
          · rw [List.dropWhile_cons, if_pos (by simp [hq])]
            exact hdrop
          · rw [hrun]
            show submitsOf (ev ++ ev2) = q :: qs
            rw [submitsOf_append, hsub]
            simp [hsubs]
          · rw [hrun]
            show Except.ok (jobId :: rest2) = _
            rw [List.map_cons, hjid, h3]
        · rw [hre] at he2
          exact absurd he2 (by simp)

/-- Helper: complete case analysis of `run_deactivation` over the planned
query sequence: either every planned query succeeds and all of them are
submitted in plan order, or there is a first failing planned query, exactly
the plan prefix up to and including it is submitted, and the run raises that
query's own exception. -/
theorem run_deactivation_ev_cases (client : Client) (project_id : String)
    (sandboxFor : String → String) (gen : String → String → List QueryDict)
    (ds : List String) :
    ((plannedQueries sandboxFor gen ds).dropWhile (okF client) = [] ∧
      submitsOf (run_deactivation_ev client project_id sandboxFor gen ds).1 =
        plannedQueries sandboxFor gen ds ∧
      ∃ out, (run_deactivation_ev client project_id sandboxFor gen ds).2 =
        Except.ok out) ∨
    (∃ q rest, (plannedQueries sandboxFor gen ds).dropWhile (okF client) = q :: rest ∧
      submitsOf (run_deactivation_ev client project_id sandboxFor gen ds).1 =
        (plannedQueries sandboxFor gen ds).takeWhile (okF client) ++ [q] ∧
      ∃ e, (query_runner_ev client q).2 = Except.error e ∧
        (run_deactivation_ev client project_id sandboxFor gen ds).2 =
          Except.error e) := by
  induction ds with
  | nil => exact Or.inl ⟨rfl, rfl, [], rfl⟩
  | cons d ds ih =>
    rcases hqe : run_queries_ev client (gen d (sandboxFor d)) with ⟨ev, r⟩
    rcases run_queries_ev_cases client (gen d (sandboxFor d)) with
      ⟨hdrop1, hsubs1, hres1⟩ | ⟨q0, rest0, hdrop1, hsubs1, e0, he0, he0run⟩
    · rw [hqe] at hsubs1 hres1
      have hr : r = Except.ok ((gen d (sandboxFor d)).map (jidOf client)) := hres1
      subst hr
      rcases hre2 : run_deactivation_ev client project_id sandboxFor gen ds with ⟨ev2, r2⟩
      rcases ih with ⟨hdrop2, hsubs2, out, hres2⟩ |
        ⟨q1, rest1, hdrop2, hsubs2, e1, he1, he1run⟩
      · rw [hre2] at hsubs2 hres2
        have hr2 : r2 = Except.ok out := hres2
        subst hr2
        have hrun : run_deactivation_ev client project_id sandboxFor gen (d :: ds) =
            (Event.sandbox project_id d (sandboxFor d) :: (ev ++ ev2),
             Except.ok ((d, (gen d (sandboxFor d)).map (jidOf client)) :: out)) := by
          rw [run_deactivation_ev, hqe, hre2]
        refine Or.inl ⟨?_, ?_,
          ⟨(d, (gen d (sandboxFor d)).map (jidOf client)) :: out, ?_⟩⟩
        · rw [plannedQueries_cons, dropWhile_append_nil _ _ _ hdrop1]
          exact hdrop2
        · rw [hrun, plannedQueries_cons]
          show submitsOf (ev ++ ev2) = _
          rw [submitsOf_append, hsubs1, hsubs2]
        · rw [hrun]
      · rw [hre2] at hsubs2 he1run
        have hr2 : r2 = Except.error e1 := by simpa using he1run
        subst hr2
        have hrun : run_deactivation_ev client project_id sandboxFor gen (d :: ds) =
            (Event.sandbox project_id d (sandboxFor d) :: (ev ++ ev2),
             Except.error e1) := by
          rw [run_deactivation_ev, hqe, hre2]
        refine Or.inr ⟨q1, rest1, ?_, ?_, e1, he1, ?_⟩
        · rw [plannedQueries_cons, dropWhile_append_nil _ _ _ hdrop1]
          exact hdrop2
        · rw [hrun, plannedQueries_cons, takeWhile_append_nil _ _ _ hdrop1]
          show submitsOf (ev ++ ev2) = _
          rw [submitsOf_append, hsubs1, hsubs2]
          simp
        · rw [hrun]
    · rw [hqe] at hsubs1 he0run
      have hr : r = Except.error e0 := by simpa using he0run
      subst hr
      have hrun : run_deactivation_ev client project_id sandboxFor gen (d :: ds) =
          (Event.sandbox project_id d (sandboxFor d) :: ev, Except.error e0) := by
        rw [run_deactivation_ev, hqe]
      refine Or.inr ⟨q0, rest0 ++ plannedQueries sandboxFor gen ds, ?_, ?_, e0, he0, ?_⟩
      · rw [plannedQueries_cons]
        exact dropWhile_append_cons _ _ _ _ _ hdrop1
      · rw [hrun, plannedQueries_cons, takeWhile_append_cons _ _ _ _ _ hdrop1]
        show submitsOf ev = _
        exact hsubs1
      · rw [hrun]

/-- C3: `run_deactivation` never retries.  The queries it submits are exactly
the longest all-succeeding prefix of the planned query sequence plus, when a
failure occurs, the single first failing query: every generated query is
submitted at most once (the submissions are a prefix of the plan), and the
run raises an exception exactly when some planned query fails, the raised
exception being the first failing query's own — so no further query of that
dataset and no later dataset is processed. -/
theorem run_deactivation_no_retry (client : Client) (project_id : String)
    (sandboxFor : String → String) (gen : String → String → List QueryDict)
    (dataset_ids : List String) :
    submitsOf (run_deactivation_ev client project_id sandboxFor gen dataset_ids).1 =
      (plannedQueries sandboxFor gen dataset_ids).takeWhile (okF client) ++
        ((plannedQueries sandboxFor gen dataset_ids).dropWhile (okF client)).take 1 ∧
    (∃ rest,
      submitsOf (run_deactivation_ev client project_id sandboxFor gen dataset_ids).1 ++
        rest = plannedQueries sandboxFor gen dataset_ids) ∧
    (∀ e, (run_deactivation_ev client project_id sandboxFor gen dataset_ids).2 =
        Except.error e ↔
      ∃ q, ((plannedQueries sandboxFor gen dataset_ids).dropWhile (okF client)).head? =
          some q ∧
        (query_runner_ev client q).2 = Except.error e) := by
  rcases run_deactivation_ev_cases client project_id sandboxFor gen dataset_ids with
    ⟨hdrop, hsubs, out, hres⟩ | ⟨q, rest, hdrop, hsubs, e0, he0, he0run⟩
  · refine ⟨?_, ⟨[], ?_⟩, ?_⟩
    · rw [hsubs, hdrop, List.take_nil, List.append_nil,
        takeWhile_eq_self_of _ _ hdrop]
    · rw [hsubs, List.append_nil]
    · intro e
      constructor
      · intro he
        rw [hres] at he
        exact absurd he (by simp)
      · rintro ⟨q, hq, -⟩
        rw [hdrop] at hq
        cases hq
  · refine ⟨?_, ⟨rest, ?_⟩, ?_⟩
    · rw [hsubs, hdrop]
      rfl
    · rw [hsubs]
      have h2 := List.takeWhile_append_dropWhile (p := okF client)
        (l := plannedQueries sandboxFor gen dataset_ids)
      rw [hdrop] at h2
      rw [List.append_assoc]
      simpa using h2
    · intro e
      constructor
      · intro he
        rw [he0run] at he
        have he' : e0 = e := by simpa using he
        subst he'
        exact ⟨q, by rw [hdrop]; rfl, he0⟩
      · rintro ⟨q2, hq2, he2⟩
        rw [hdrop] at hq2
        have hq2' : q2 = q := by simpa using hq2.symm
        subst hq2'
        rw [he0] at he2
        have he' : e0 = e := by simpa using he2
        subst he'
        exact he0run

/-- Witness for C3: a client that fails on the query `"b"` makes a run over
two datasets submit only the first dataset's queries up to and including the
failing one; nothing of the second dataset is submitted. -/
theorem run_deactivation_no_retry_witness :
    submitsOf (run_deactivation_ev
      ⟨3, "p", fun qd _ =>
        if qd.query = "b" then SubmitResult.raised (CloudExn.googleCloudError "x")
        else SubmitResult.job "j" (AwaitResult.done none)⟩
      "proj" (fun d => d ++ "_sb")
      (fun d _ => [{ query := d ++ "a" }, { query := d ++ "b" }])
      ["", "zz"]).1 = [{ query := "a" }, { query := "b" }] :=
  (run_deactivation_no_retry
    ⟨3, "p", fun qd _ =>
      if qd.query = "b" then SubmitResult.raised (CloudExn.googleCloudError "x")
      else SubmitResult.job "j" (AwaitResult.done none)⟩
    "proj" (fun d => d ++ "_sb")
    (fun d _ => [{ query := d ++ "a" }, { query := d ++ "b" }])
    ["", "zz"]).1

end Curation
